import Mathlib

/-!
Shallow embedding of `generate_rag_improvement_doc.py`, a script that builds
a fixed Word document (python-docx) describing a seven-phase RAG improvement
plan and saves it as `PIANO_MIGLIORAMENTO_RAG.docx`.

The document model mirrors python-docx at the granularity the script uses:
a document is an ordered list of block elements (paragraphs and tables);
a paragraph is a list of runs plus a style, an alignment and an optional
left indent; a run is text plus optional bold/italic/size/colour; a table
is a grid of cells, each cell a list of paragraphs.

The two `datetime.now().strftime(...)` results are the only non-constant
inputs of the script; the embedding passes them as explicit string
parameters (`monthYear`, `nowStamp`).
-/

/-- A text run: text plus direct formatting (python-docx `Run`).
`none` means the property is inherited/unset. -/
structure TextRun where
  text : String
  bold : Option Bool := none
  italic : Option Bool := none
  sizePt : Option Nat := none
  colorRGB : Option (Nat × Nat × Nat) := none
deriving Repr, DecidableEq

/-- Paragraph alignment; the script only ever sets CENTER (default LEFT). -/
inductive ParaAlignment
  | left
  | center
deriving Repr, DecidableEq

/-- A paragraph: runs, optional named style, alignment, optional left indent
in EMU (python-docx `Paragraph` at the granularity this script uses). -/
structure DocParagraph where
  runs : List TextRun := []
  style : Option String := none
  alignment : ParaAlignment := ParaAlignment.left
  leftIndentEmu : Option Nat := none
deriving Repr, DecidableEq

/-- A table cell holds a list of paragraphs (python-docx `_Cell`). -/
structure TableCell where
  paragraphs : List DocParagraph
deriving Repr, DecidableEq

/-- A table: declared row/column counts, the grid of cells (row-major), and
an optional table style name. -/
structure DocTable where
  nRows : Nat
  nCols : Nat
  cells : List (List TableCell)
  style : Option String := none
deriving Repr, DecidableEq

/-- A block-level element of the document body. -/
inductive DocElement
  | paragraph (p : DocParagraph)
  | table (t : DocTable)
deriving Repr, DecidableEq

/-- The in-memory document: the ordered list of its block elements. -/
structure Docx where
  elements : List DocElement := []
deriving Repr, DecidableEq

/-- `RGBColor(r, g, b)` from the script, kept as a plain triple. -/
def RGBColor (r g b : Nat) : Nat × Nat × Nat := (r, g, b)

/-- `Inches(x)` in EMU, with the length given in thousandths of an inch
(1 inch = 914400 EMU, so `Inches(0.5)` is `InchesEmu 500 = 457200`). -/
def InchesEmu (thousandths : Nat) : Nat := thousandths * 9144 / 10

/-- A run carrying only text, as `add_run(text)` creates before any direct
formatting is applied. -/
def plainRun (text : String) : TextRun :=
  { text := text }

/-- python-docx `add_paragraph(text, style)`: the paragraph gets a single run
holding `text` when `text` is non-empty, and no run at all when it is empty. -/
def mkParagraph (text : String) (style : Option String) : DocParagraph :=
  { runs := if text = "" then [] else [plainRun text], style := style }

/-- python-docx heading style name: level 0 is `Title`, level n is
`Heading n`. -/
def headingStyle (level : Nat) : String :=
  if level = 0 then "Title" else "Heading " ++ toString level

/-- Append one block element at the end of the document body. -/
def Docx.addElement (d : Docx) (e : DocElement) : Docx :=
  ⟨d.elements ++ [e]⟩

/-- `heading.runs[0].font.color.rgb = c`: sets the colour of run 0 of a
paragraph; fails (Python `IndexError`) when the paragraph has no run. -/
def set_run0_color (p : DocParagraph) (c : Nat × Nat × Nat) :
    Option DocParagraph :=
  match p.runs with
  | [] => none
  | r :: rs => some { p with runs := { r with colorRGB := some c } :: rs }

/-- `add_heading_with_style(doc, text, level)`: adds a heading and colours
its first run dark blue. The `heading.runs[0]` access makes it fallible. -/
def add_heading_with_style (doc : Docx) (text : String) (level : Nat := 1) :
    Option Docx :=
  let heading := mkParagraph text (some (headingStyle level))
  (set_run0_color heading (RGBColor 0 51 102)).map fun h =>
    doc.addElement (DocElement.paragraph h)

/-- A `List Bullet` paragraph with `paragraph_format.left_indent =
Inches(0.5)`, as the activity and metric loops build. -/
def bulletHalfIndent (text : String) : DocParagraph :=
  { mkParagraph text (some "List Bullet") with
      leftIndentEmu := some (InchesEmu 500) }

/-- `add_phase(doc, phase_number, title, description, activities)`: phase
heading, bold-labelled description, `Attività principali:` heading, one
indented bullet per activity, then a spacing paragraph. -/
def add_phase (doc : Docx) (phase_number : Nat) (title description : String)
    (activities : List String) : Option Docx :=
  (add_heading_with_style doc
      ("Fase " ++ toString phase_number ++ ": " ++ title) 2).map fun doc =>
    let desc_para : DocParagraph :=
      { runs := [{ text := "Descrizione: ", bold := some true },
                 plainRun description] }
    let doc := doc.addElement (DocElement.paragraph desc_para)
    let doc := doc.addElement (DocElement.paragraph
      (mkParagraph "Attività principali:" (some "Heading 3")))
    let doc := activities.foldl
      (fun d a => d.addElement (DocElement.paragraph (bulletHalfIndent a))) doc
    doc.addElement (DocElement.paragraph (mkParagraph "" none))

/-- `add_metrics_section(doc, metrics)`: `Metriche di successo:` heading, one
indented bullet per metric, then a spacing paragraph. -/
def add_metrics_section (doc : Docx) (metrics : List String) : Docx :=
  let doc := doc.addElement (DocElement.paragraph
    (mkParagraph "Metriche di successo:" (some "Heading 3")))
  let doc := metrics.foldl
    (fun d m => d.addElement (DocElement.paragraph (bulletHalfIndent m))) doc
  doc.addElement (DocElement.paragraph (mkParagraph "" none))

/-- python-docx `add_table(rows, cols)` starts every cell with one empty
paragraph. -/
def emptyCell : TableCell :=
  ⟨[{ runs := [] }]⟩

/-- `doc.add_table(rows=r, cols=c)`: an r × c grid of empty cells. -/
def add_table (rows cols : Nat) : DocTable :=
  ⟨rows, cols, List.replicate rows (List.replicate cols emptyCell), none⟩

/-- python-docx `cell.text = s` (setter): replaces the cell content with a
single paragraph holding a single run with text `s`. -/
def TableCell.setText (s : String) : TableCell :=
  ⟨[{ runs := [plainRun s] }]⟩

/-- The header-bolding loop: `run.font.bold = True` on every run of every
paragraph of a cell. -/
def boldAllRuns (c : TableCell) : TableCell :=
  ⟨c.paragraphs.map fun p =>
    { p with runs := p.runs.map fun r => { r with bold := some true } }⟩

/-- `row_cells[0].text = a; row_cells[1].text = b; row_cells[2].text = c` on
row `i` of a table. -/
def setRowTexts (t : DocTable) (i : Nat) (a b c : String) : DocTable :=
  let row := (((t.cells.getD i []).set 0 (TableCell.setText a)).set 1
    (TableCell.setText b)).set 2 (TableCell.setText c)
  { t with cells := t.cells.set i row }

/-- Paragraph text as python-docx reads it: the concatenated run texts. -/
def paragraphText (p : DocParagraph) : String :=
  String.join (p.runs.map TextRun.text)

/-- Cell text as python-docx reads it: paragraph texts joined by newlines. -/
def cellText (c : TableCell) : String :=
  String.intercalate "\n" (c.paragraphs.map paragraphText)

/-- The `current_features` list (8 items). -/
def current_features : List String :=
  [ "Embedding vettoriali per ricerca semantica",
    "Sistema di caching per ottimizzazione prestazioni",
    "Query analysis con HyDE e query rewriting",
    "Reranking con considerazione di diversità (MMR)",
    "Metriche di qualità RAG con RAGAS",
    "Rilevamento di allucinazioni",
    "Verifica delle citazioni",
    "Configurazione modulare per ogni fase RAG" ]

/-- One phase section's literal arguments: the values passed to `add_phase`
and to the `add_metrics_section` call that follows it. -/
structure PhaseSpec where
  number : Nat
  title : String
  description : String
  activities : List String
  metrics : List String
deriving Repr, DecidableEq

/-- Phase 1 literals. -/
def phase1 : PhaseSpec :=
  { number := 1
    title := "Ottimizzazione degli Embeddings"
    description := "Migliorare la qualità della rappresentazione vettoriale dei documenti per una ricerca semantica più accurata."
    activities :=
      [ "Valutare modelli di embedding alternativi (es. Multilingual-E5, BGE-M3)",
        "Implementare fine-tuning del modello di embedding su documenti specifici del dominio",
        "Ottimizzare il chunking dei documenti (dimensione, overlap, strategie smart)",
        "Implementare chunking semantico basato su struttura del documento",
        "Aggiungere metadati ricchi per ogni chunk (titolo, sezione, keywords)",
        "Validare miglioramenti con metriche di retrieval (MRR, NDCG)" ]
    metrics :=
      [ "Mean Reciprocal Rank (MRR) > 0.85",
        "Normalized Discounted Cumulative Gain (NDCG) > 0.80",
        "Riduzione del 30% dei casi di recupero non rilevante" ] }

/-- Phase 2 literals. -/
def phase2 : PhaseSpec :=
  { number := 2
    title := "Miglioramento della Ricerca Ibrida"
    description := "Combinare efficacemente ricerca vettoriale e ricerca testuale per massimizzare la rilevanza."
    activities :=
      [ "Implementare ricerca ibrida con BM25 + Vector Search",
        "Ottimizzare il peso relativo tra ricerca semantica e keyword-based",
        "Aggiungere filtri avanzati (data, tipo documento, autore)",
        "Implementare ricerca multi-hop per query complesse",
        "Abilitare query expansion con sinonimi e termini correlati",
        "Implementare cache semantica per query simili" ]
    metrics :=
      [ "Precision@5 > 0.90",
        "Recall@10 > 0.85",
        "Tempo medio di risposta < 1.5 secondi" ] }

/-- Phase 3 literals. -/
def phase3 : PhaseSpec :=
  { number := 3
    title := "Reranking Avanzato"
    description := "Riordinare i risultati recuperati utilizzando modelli più sofisticati per massimizzare la rilevanza."
    activities :=
      [ "Integrare modelli di reranking specializzati (es. Cohere Rerank, bge-reranker)",
        "Implementare reranking cross-encoder per precisione maggiore",
        "Aggiungere pesi temporali per privilegiare documenti recenti",
        "Ottimizzare il parametro MMR Lambda per bilanciamento rilevanza/diversità",
        "Implementare contextual reranking basato su conversazione",
        "A/B testing di diverse strategie di reranking" ]
    metrics :=
      [ "Miglioramento del 25% nella rilevanza percepita dagli utenti",
        "Riduzione del 40% dei click su risultati non rilevanti",
        "Aumento del 30% del tempo di permanenza sulle risposte" ] }

/-- Phase 4 literals. -/
def phase4 : PhaseSpec :=
  { number := 4
    title := "Generazione e Sintesi Avanzata"
    description := "Migliorare la qualità della generazione della risposta finale utilizzando tecniche avanzate di prompt engineering e LLM."
    activities :=
      [ "Ottimizzare i prompt di sistema per risposte più accurate e contestuali",
        "Implementare chain-of-thought reasoning per query complesse",
        "Abilitare compressione contestuale per gestire più informazioni",
        "Implementare self-consistency checking (multiple generations + voting)",
        "Aggiungere fact-checking automatico delle risposte generate",
        "Implementare refinement iterativo per risposte di alta qualità",
        "Gestire meglio le citazioni con link diretti ai documenti fonte" ]
    metrics :=
      [ "Faithfulness score (RAGAS) > 0.90",
        "Answer relevancy score (RAGAS) > 0.85",
        "Riduzione del 50% delle allucinazioni rilevate" ] }

/-- Phase 5 literals. -/
def phase5 : PhaseSpec :=
  { number := 5
    title := "Monitoraggio e Quality Assurance"
    description := "Implementare un sistema robusto di monitoraggio continuo e miglioramento della qualità."
    activities :=
      [ "Dashboard real-time per metriche RAG (latency, relevance, quality)",
        "Sistema di logging completo per analisi post-mortem",
        "Implementare human-in-the-loop feedback per miglioramento continuo",
        "A/B testing framework per confrontare miglioramenti",
        "Alert automatici per degradazione della qualità",
        "Raccolta e analisi di query fallite per training futuro",
        "Implementare regression testing per prevenire degradazioni" ]
    metrics :=
      [ "Copertura di monitoring su 100% delle query",
        "Tempo medio di detection dei problemi < 5 minuti",
        "Feedback degli utenti raccolto su almeno il 10% delle query" ] }

/-- Phase 6 literals. -/
def phase6 : PhaseSpec :=
  { number := 6
    title := "Ottimizzazione Prestazioni e Scalabilità"
    description := "Garantire che il sistema RAG possa gestire un carico crescente mantenendo performance eccellenti."
    activities :=
      [ "Implementare caching multi-livello (query, embeddings, risultati)",
        "Ottimizzare le query al database vettoriale (batch processing, indexing)",
        "Implementare pre-computation degli embeddings per documenti statici",
        "Configurare auto-scaling basato sul carico",
        "Ottimizzare l'utilizzo della memoria e delle risorse GPU/CPU",
        "Implementare rate limiting e throttling intelligente",
        "Load testing e stress testing del sistema" ]
    metrics :=
      [ "Throughput > 100 query/secondo",
        "P95 latency < 2 secondi",
        "Utilizzo risorse ottimale (CPU < 70%, memoria < 80%)" ] }

/-- Phase 7 literals. -/
def phase7 : PhaseSpec :=
  { number := 7
    title := "Personalizzazione e Context Awareness"
    description := "Rendere il sistema più intelligente adattandolo al contesto e alle preferenze dell'utente."
    activities :=
      [ "Implementare user profiling per personalizzare i risultati",
        "Context tracking per conversazioni multi-turn più coerenti",
        "Apprendimento dalle interazioni utente (implicit feedback)",
        "Personalizzazione del linguaggio e del tono delle risposte",
        "Supporto multi-lingua con modelli specifici per lingua",
        "Memorizzazione delle preferenze dell'utente",
        "Raccomandazioni proattive basate su query precedenti" ]
    metrics :=
      [ "Aumento del 40% della soddisfazione utente",
        "Riduzione del 30% delle query di follow-up",
        "Aumento del 25% del tasso di utilizzo ripetuto" ] }

/-- The seven phase sections in the order the script emits them. -/
def phaseSections : List PhaseSpec :=
  [phase1, phase2, phase3, phase4, phase5, phase6, phase7]

/-- `summary_text` literal. -/
def summary_text : String :=
  "Questo documento delinea un approccio strutturato in fasi per migliorare progressivamente il sistema RAG (Retrieval-Augmented Generation) documentale. L'obiettivo è ottimizzare la qualità delle risposte, ridurre le allucinazioni, migliorare la rilevanza dei risultati e garantire un'esperienza utente eccellente."

/-- `phases_data`: the timeline rows (name, duration, priority). -/
def phases_data : List (String × String × String) :=
  [ ("Fase 1: Ottimizzazione Embeddings", "2-3 settimane", "Alta"),
    ("Fase 2: Ricerca Ibrida", "3-4 settimane", "Alta"),
    ("Fase 3: Reranking Avanzato", "2-3 settimane", "Media"),
    ("Fase 4: Generazione Avanzata", "3-4 settimane", "Alta"),
    ("Fase 5: Monitoraggio e QA", "2-3 settimane", "Alta"),
    ("Fase 6: Prestazioni e Scalabilità", "2-3 settimane", "Media"),
    ("Fase 7: Personalizzazione", "4-5 settimane", "Bassa") ]

/-- The timeline table as the script leaves it: an 8 × 3 `Light Grid
Accent 1` table, header texts set and bolded, then one data row per
`phases_data` entry (`enumerate(phases_data, 1)`). -/
def timeline_table : DocTable :=
  let t := { add_table 8 3 with style := some "Light Grid Accent 1" }
  let t := setRowTexts t 0 "Fase" "Durata Stimata" "Priorità"
  let t := { t with cells := t.cells.set 0 ((t.cells.getD 0 []).map boldAllRuns) }
  (List.enumFrom 1 phases_data).foldl
    (fun t x => setRowTexts t x.1 x.2.1 x.2.2.1 x.2.2.2) t

/-- `best_practices` list (8 items). -/
def best_practices : List String :=
  [ "Implementare ogni fase in modo incrementale con A/B testing",
    "Validare ogni miglioramento con metriche oggettive prima di procedere",
    "Mantenere sempre una versione stabile in produzione (rollback ready)",
    "Documentare tutte le modifiche e i risultati dei test",
    "Coinvolgere gli utenti finali per feedback qualitativo",
    "Automatizzare il testing per prevenire regressioni",
    "Monitorare costantemente costi e performance",
    "Rivedere periodicamente le priorità in base ai risultati" ]

/-- `embedding_tools` list. -/
def embedding_tools : List String :=
  [ "Multilingual-E5-large (per documenti multilingua)",
    "BGE-M3 (per supporto multilingua robusto)",
    "OpenAI text-embedding-3-large (per qualità superiore)" ]

/-- `reranking_tools` list. -/
def reranking_tools : List String :=
  [ "Cohere Rerank API",
    "bge-reranker-large",
    "Cross-encoders (sentence-transformers)" ]

/-- `vector_db_tools` list. -/
def vector_db_tools : List String :=
  [ "Qdrant (attuale, ottimizzare configurazione)",
    "Pinecone (per scalabilità cloud)",
    "Weaviate (per ricerca ibrida avanzata)" ]

/-- `monitoring_tools` list. -/
def monitoring_tools : List String :=
  [ "LangSmith (per tracing completo LLM)",
    "Prometheus + Grafana (per metriche real-time)",
    "Sentry (per error tracking)",
    "Custom dashboard con Application Insights" ]

/-- `conclusion_text` literal. -/
def conclusion_text : String :=
  "Il miglioramento di un sistema RAG documentale è un processo iterativo che richiede attenzione continua e validazione empirica. Le fasi proposte in questo documento forniscono una roadmap strutturata per evolvere progressivamente il sistema, bilanciando qualità delle risposte, performance, e esperienza utente.\n\nÈ fondamentale procedere in modo incrementale, validando ogni miglioramento con metriche oggettive e feedback degli utenti prima di passare alla fase successiva. Il successo a lungo termine dipenderà dalla capacità di monitorare costantemente il sistema e adattarsi alle esigenze emergenti degli utenti."

/-- Shorthand for the plain `doc.add_paragraph(text, style)` call. -/
def addStyledPara (d : Docx) (text : String) (style : Option String) : Docx :=
  d.addElement (DocElement.paragraph (mkParagraph text style))

/-- Shorthand for the empty spacing paragraph `doc.add_paragraph()`. -/
def addSpacer (d : Docx) : Docx :=
  addStyledPara d "" none


/-- The empty spacing paragraph `doc.add_paragraph()`. -/
def spacerPara : DocParagraph :=
  mkParagraph "" none

/-- One statement of the straight-line body of
`create_rag_improvement_document`, in a form an interpreter can replay:
`para` is one `add_paragraph`-style append of a fully built paragraph,
`paras` is a loop appending one paragraph per list item, `heading` is an
`add_heading_with_style` call, `phaseSec` an `add_phase` call, `metrics` an
`add_metrics_section` call, `tbl` an `add_table` append. -/
inductive BuildStep
  | para (p : DocParagraph)
  | paras (ps : List DocParagraph)
  | heading (text : String) (level : Nat)
  | phaseSec (p : PhaseSpec)
  | metrics (ms : List String)
  | tbl (t : DocTable)
deriving Repr, DecidableEq

/-- Execute one build step on the document; only `heading` and `phaseSec`
(whose first statement is a heading) are fallible. -/
def applyStep (d : Docx) : BuildStep → Option Docx
  | BuildStep.para p => some (d.addElement (DocElement.paragraph p))
  | BuildStep.paras ps =>
      some (ps.foldl (fun d p => d.addElement (DocElement.paragraph p)) d)
  | BuildStep.heading text level => add_heading_with_style d text level
  | BuildStep.phaseSec p => add_phase d p.number p.title p.description p.activities
  | BuildStep.metrics ms => some (add_metrics_section d ms)
  | BuildStep.tbl t => some (d.addElement (DocElement.table t))

/-- Replay a list of build steps from a starting document, stopping at the
first failure (a Python exception would abort the whole run). -/
def runSteps (d : Docx) : List BuildStep → Option Docx
  | [] => some d
  | s :: rest =>
      match applyStep d s with
      | none => none
      | some d' => runSteps d' rest

/-- The title paragraph (`add_heading(..., level=0)` then centred). -/
def titlePara : DocParagraph :=
  { mkParagraph "Piano di Miglioramento RAG Documentale"
      (some (headingStyle 0)) with alignment := ParaAlignment.center }

/-- The subtitle paragraph: centred, one italic 12pt run carrying the
current month/year (`datetime.now().strftime("%B %Y")`). -/
def subtitlePara (monthYear : String) : DocParagraph :=
  { runs := [{ text := "Sistema DocN - " ++ monthYear,
               italic := some true, sizePt := some 12 }],
    alignment := ParaAlignment.center }

/-- The footer paragraph: centred, one italic 9pt grey run carrying the
current date/time (`datetime.now().strftime("%d/%m/%Y alle %H:%M")`). -/
def footerPara (nowStamp : String) : DocParagraph :=
  { runs := [{ text := "Documento generato il " ++ nowStamp ++
                 "\nSistema DocN - Archiviazione Documentale con RAG",
               italic := some true, sizePt := some 9,
               colorRGB := some (RGBColor 128 128 128) }],
    alignment := ParaAlignment.center }

/-- The statements of `create_rag_improvement_document`, in program order.
Each entry transliterates one statement (or one loop) of the source. -/
def buildScript (monthYear nowStamp : String) : List BuildStep :=
  [ BuildStep.para titlePara,
    BuildStep.para (subtitlePara monthYear),
    BuildStep.para spacerPara,
    BuildStep.heading "📋 Sommario Esecutivo" 1,
    BuildStep.para (mkParagraph summary_text none),
    BuildStep.para spacerPara,
    BuildStep.heading "🔍 Analisi dello Stato Attuale" 1,
    BuildStep.para (mkParagraph "Il sistema attuale include:" (some "Heading 3")),
    BuildStep.paras (current_features.map fun f =>
      mkParagraph ("✓ " ++ f) (some "List Bullet")),
    BuildStep.para spacerPara,
    BuildStep.heading "🎯 Fasi di Miglioramento" 1,
    BuildStep.phaseSec phase1,
    BuildStep.metrics phase1.metrics,
    BuildStep.phaseSec phase2,
    BuildStep.metrics phase2.metrics,
    BuildStep.phaseSec phase3,
    BuildStep.metrics phase3.metrics,
    BuildStep.phaseSec phase4,
    BuildStep.metrics phase4.metrics,
    BuildStep.phaseSec phase5,
    BuildStep.metrics phase5.metrics,
    BuildStep.phaseSec phase6,
    BuildStep.metrics phase6.metrics,
    BuildStep.phaseSec phase7,
    BuildStep.metrics phase7.metrics,
    BuildStep.heading "📅 Timeline di Implementazione Suggerita" 1,
    BuildStep.tbl timeline_table,
    BuildStep.para spacerPara,
    BuildStep.heading "💡 Best Practices Generali" 1,
    BuildStep.paras (best_practices.map fun pr =>
      { runs := [plainRun ("• " ++ pr)],
        leftIndentEmu := some (InchesEmu 250) }),
    BuildStep.para spacerPara,
    BuildStep.heading "🛠️ Strumenti e Tecnologie Consigliate" 1,
    BuildStep.para (mkParagraph "Embedding Models:" (some "Heading 3")),
    BuildStep.paras (embedding_tools.map fun s =>
      mkParagraph s (some "List Bullet")),
    BuildStep.para (mkParagraph "Reranking:" (some "Heading 3")),
    BuildStep.paras (reranking_tools.map fun s =>
      mkParagraph s (some "List Bullet")),
    BuildStep.para (mkParagraph "Vector Databases:" (some "Heading 3")),
    BuildStep.paras (vector_db_tools.map fun s =>
      mkParagraph s (some "List Bullet")),
    BuildStep.para (mkParagraph "Monitoring:" (some "Heading 3")),
    BuildStep.paras (monitoring_tools.map fun s =>
      mkParagraph s (some "List Bullet")),
    BuildStep.para spacerPara,
    BuildStep.heading "🎓 Conclusioni" 1,
    BuildStep.para (mkParagraph conclusion_text none),
    BuildStep.para spacerPara,
    BuildStep.para (footerPara nowStamp) ]

/-- `create_rag_improvement_document()`, with the two
`datetime.now().strftime` results passed in as `monthYear` (the subtitle's
`"%B %Y"`) and `nowStamp` (the footer's `"%d/%m/%Y alle %H:%M"`): replay
the script's statements on an empty document. -/
def create_rag_improvement_document (monthYear nowStamp : String) :
    Option Docx :=
  runSteps {} (buildScript monthYear nowStamp)

/-- The document a run with timestamp strings `monthYear`/`nowStamp`
produces (`create_rag_improvement_document` never fails, see the C8
theorem; the `.getD` default is never reached). -/
def theDocument (monthYear nowStamp : String) : Docx :=
  (create_rag_improvement_document monthYear nowStamp).getD {}

/-- An observable effect of `main`: a line printed to standard output, a
file written (python-docx `doc.save`, which truncates/overwrites the
target), or a file read. The script performs no reads; the constructor
exists so that their absence is a provable statement. -/
inductive MainEffect
  | print (line : String)
  | fileWrite (filename : String) (doc : Docx)
  | fileRead (filename : String)
deriving Repr, DecidableEq

/-- `output_filename = "PIANO_MIGLIORAMENTO_RAG.docx"`. -/
def output_filename : String :=
  "PIANO_MIGLIORAMENTO_RAG.docx"

/-- `main()` on a successful run: its ordered effect trace, parametrised by
the two timestamp strings. `none` would mean `create_rag_improvement_document`
raised (it never does, see the C8 theorem). -/
def main_trace (monthYear nowStamp : String) : Option (List MainEffect) :=
  match create_rag_improvement_document monthYear nowStamp with
  | none => none
  | some doc =>
      some [ MainEffect.print "Generazione del documento di miglioramento RAG...",
             MainEffect.fileWrite output_filename doc,
             MainEffect.print ("✓ Documento creato con successo: " ++ output_filename),
             MainEffect.print ("  Il documento contiene 7 fasi dettagliate per migliorare il sistema RAG") ]

/-- Is this effect a file write? -/
def isFileWrite : MainEffect → Bool
  | MainEffect.fileWrite _ _ => true
  | _ => false

/-- Is this effect a file read? -/
def isFileRead : MainEffect → Bool
  | MainEffect.fileRead _ => true
  | _ => false

/-- Is this effect a print? -/
def isPrint : MainEffect → Bool
  | MainEffect.print _ => true
  | _ => false

/-- The filename of a write effect (empty for other effects). -/
def writeTarget : MainEffect → String
  | MainEffect.fileWrite n _ => n
  | _ => ""

/-- The printed line of a print effect (empty for other effects). -/
def printedLine : MainEffect → String
  | MainEffect.print s => s
  | _ => ""

/-- The confirmation lines of a trace: the lines printed after the document
has been saved (the trailing prints that confirm the write succeeded). -/
def confirmationLines (tr : List MainEffect) : List String :=
  (((tr.dropWhile fun e => !isFileWrite e).drop 1).filter isPrint).map printedLine

/-- Replay a trace against a filesystem modelled as a map from filename to
file content: a write stores the document under its name, overwriting
whatever was there; prints do not touch the filesystem. -/
def applyEffect (fs : String → Option Docx) : MainEffect → (String → Option Docx)
  | MainEffect.fileWrite n d => fun m => if m = n then some d else fs m
  | _ => fs

/-- Two documents with the same element list are the same document. -/
@[ext] lemma Docx.ext (a b : Docx) (h : a.elements = b.elements) : a = b := by
  cases a
  cases b
  cases h
  rfl

/-- Appending an element appends it to the element list. -/
@[simp] lemma addElement_elements (d : Docx) (e : DocElement) :
    (d.addElement e).elements = d.elements ++ [e] := rfl

/-- A heading text of the shape `Fase …` is never the empty string. -/
lemma fase_text_ne_empty (x y z : String) : ("Fase " ++ x ++ y ++ z) ≠ "" := by
  intro h
  have h2 : ("Fase " ++ x ++ y ++ z).length = ("" : String).length :=
    congrArg String.length h
  simp only [String.length_append] at h2
  have h3 : ("Fase " : String).length = 5 := rfl
  have h4 : ("" : String).length = 0 := rfl
  omega

/-- `add_paragraph` with a non-empty text produces exactly one run. -/
lemma mkParagraph_of_ne (text : String) (st : Option String) (h : text ≠ "") :
    mkParagraph text st = { runs := [plainRun text], style := st } := by
  simp [mkParagraph, h]

/-- On non-empty text, `add_heading_with_style` succeeds and appends one
heading paragraph whose single run is coloured dark blue. -/
lemma add_heading_with_style_eq (d : Docx) (text : String) (level : Nat)
    (h : text ≠ "") :
    add_heading_with_style d text level =
      some (d.addElement (DocElement.paragraph
        { runs := [{ text := text, colorRGB := some (RGBColor 0 51 102) }],
          style := some (headingStyle level) })) := by
  rw [add_heading_with_style, mkParagraph_of_ne text _ h]
  simp [set_run0_color, plainRun]

/-- A fold appending one bullet paragraph per item appends exactly the
mapped paragraphs, in order. -/
lemma foldl_addPara_elements {α : Type} (f : α → DocParagraph) (xs : List α)
    (d : Docx) :
    (xs.foldl (fun d a => d.addElement (DocElement.paragraph (f a))) d).elements
      = d.elements ++ xs.map fun a => DocElement.paragraph (f a) := by
  induction xs generalizing d with
  | nil => simp
  | cons x xs ih =>
      rw [List.foldl_cons, ih]
      simp [Docx.addElement, List.append_assoc]

/-- The paragraph-list fold of `applyStep` appends exactly its paragraphs. -/
lemma foldl_addPara_elements_id (ps : List DocParagraph) (d : Docx) :
    (ps.foldl (fun d p => d.addElement (DocElement.paragraph p)) d).elements
      = d.elements ++ ps.map DocElement.paragraph := by
  induction ps generalizing d with
  | nil => simp
  | cons p ps ih =>
      rw [List.foldl_cons, ih]
      simp [Docx.addElement, List.append_assoc]

/-- The phase heading paragraph `Fase n: title` after its run is coloured. -/
def phaseHeadingPara (n : Nat) (t : String) : DocParagraph :=
  { runs := [{ text := "Fase " ++ toString n ++ ": " ++ t,
               colorRGB := some (RGBColor 0 51 102) }],
    style := some (headingStyle 2) }

/-- The description paragraph: a bold `Descrizione: ` run then the text. -/
def descriptionPara (ds : String) : DocParagraph :=
  { runs := [{ text := "Descrizione: ", bold := some true }, plainRun ds] }

/-- The block of elements one `add_phase` call appends: heading,
description, activities heading, one bullet per activity, spacer. -/
def phaseBlock (n : Nat) (t ds : String) (acts : List String) :
    List DocElement :=
  DocElement.paragraph (phaseHeadingPara n t)
    :: DocElement.paragraph (descriptionPara ds)
    :: DocElement.paragraph (mkParagraph "Attività principali:" (some "Heading 3"))
    :: (acts.map fun a => DocElement.paragraph (bulletHalfIndent a))
    ++ [DocElement.paragraph spacerPara]

/-- `add_phase` always succeeds (its heading text starts with `Fase `) and
appends exactly its phase block. -/
lemma add_phase_eq (d : Docx) (n : Nat) (t ds : String) (acts : List String) :
    add_phase d n t ds acts = some ⟨d.elements ++ phaseBlock n t ds acts⟩ := by
  rw [add_phase, add_heading_with_style_eq _ _ _ (fase_text_ne_empty _ _ _)]
  refine congrArg some (Docx.ext _ _ ?_)
  simp only [addElement_elements]
  rw [foldl_addPara_elements bulletHalfIndent]
  simp [phaseBlock, phaseHeadingPara, descriptionPara, spacerPara,
    List.append_assoc]

/-- The block of elements one `add_metrics_section` call appends: metrics
heading, one bullet per metric, spacer. -/
def metricsBlock (ms : List String) : List DocElement :=
  DocElement.paragraph (mkParagraph "Metriche di successo:" (some "Heading 3"))
    :: (ms.map fun m => DocElement.paragraph (bulletHalfIndent m))
    ++ [DocElement.paragraph spacerPara]

/-- `add_metrics_section` appends exactly its metrics block. -/
lemma add_metrics_section_eq (d : Docx) (ms : List String) :
    (add_metrics_section d ms).elements = d.elements ++ metricsBlock ms := by
  show ((ms.foldl (fun d m => d.addElement (DocElement.paragraph (bulletHalfIndent m)))
      (d.addElement (DocElement.paragraph
        (mkParagraph "Metriche di successo:" (some "Heading 3"))))).addElement
      (DocElement.paragraph (mkParagraph "" none))).elements
        = d.elements ++ metricsBlock ms
  simp only [addElement_elements]
  rw [foldl_addPara_elements bulletHalfIndent]
  simp [metricsBlock, spacerPara, List.append_assoc]

/-- The one-element block a successful `add_heading_with_style` appends. -/
def headingBlock (text : String) (level : Nat) : List DocElement :=
  [DocElement.paragraph
    { runs := [{ text := text, colorRGB := some (RGBColor 0 51 102) }],
      style := some (headingStyle level) }]

/-- The elements one build step appends (`none` when the step would raise:
only a heading with empty text does). -/
def stepBlock : BuildStep → Option (List DocElement)
  | BuildStep.para p => some [DocElement.paragraph p]
  | BuildStep.paras ps => some (ps.map DocElement.paragraph)
  | BuildStep.heading text level =>
      if text = "" then none else some (headingBlock text level)
  | BuildStep.phaseSec p =>
      some (phaseBlock p.number p.title p.description p.activities)
  | BuildStep.metrics ms => some (metricsBlock ms)
  | BuildStep.tbl t => some [DocElement.table t]

/-- Every build step either fails or appends exactly its block. -/
lemma applyStep_eq (d : Docx) (s : BuildStep) :
    applyStep d s = (stepBlock s).map fun b => ⟨d.elements ++ b⟩ := by
  cases s with
  | para p => simp [applyStep, stepBlock, Docx.addElement]
  | paras ps =>
      simp only [applyStep, stepBlock, Option.map]
      exact congrArg some (Docx.ext _ _ (foldl_addPara_elements_id ps d))
  | heading text level =>
      by_cases h : text = ""
      · subst h
        simp [applyStep, stepBlock, add_heading_with_style, mkParagraph,
          set_run0_color]
      · simp only [applyStep, stepBlock, h, if_neg h,
          add_heading_with_style_eq d text level h, Option.map]
        exact congrArg some (Docx.ext _ _ rfl)
  | phaseSec p => simp [applyStep, stepBlock, add_phase_eq]
  | metrics ms =>
      simp only [applyStep, stepBlock, Option.map]
      exact congrArg some (Docx.ext _ _ (add_metrics_section_eq d ms))
  | tbl t => simp [applyStep, stepBlock, Docx.addElement]

/-- The concatenation of the blocks of a list of steps (`none` as soon as
one step fails). -/
def blocksOf : List BuildStep → Option (List DocElement)
  | [] => some []
  | s :: rest =>
      match stepBlock s, blocksOf rest with
      | some b, some bs => some (b ++ bs)
      | _, _ => none

/-- Replaying steps appends the concatenation of their blocks. -/
lemma runSteps_blocks (steps : List BuildStep) (d : Docx) :
    runSteps d steps = (blocksOf steps).map fun bs => ⟨d.elements ++ bs⟩ := by
  induction steps generalizing d with
  | nil =>
      show some d = some ⟨d.elements ++ []⟩
      exact congrArg some (Docx.ext _ _ (List.append_nil _).symm)
  | cons s rest ih =>
      rw [runSteps, applyStep_eq]
      cases hb : stepBlock s with
      | none => simp [blocksOf, hb]
      | some b =>
          simp only [Option.map]
          rw [ih]
          cases hbs : blocksOf rest with
          | none => simp [blocksOf, hb, hbs]
          | some bs =>
              simp only [blocksOf, hb, hbs, Option.map]
              exact congrArg some (Docx.ext _ _ (by
                simp [List.append_assoc]))

/-- Every element of the document between the subtitle and the footer:
fixed content, independent of both timestamps. -/
def templateMiddle : List DocElement :=
  [DocElement.paragraph spacerPara]
  ++ headingBlock "📋 Sommario Esecutivo" 1
  ++ [DocElement.paragraph (mkParagraph summary_text none)]
  ++ [DocElement.paragraph spacerPara]
  ++ headingBlock "🔍 Analisi dello Stato Attuale" 1
  ++ [DocElement.paragraph
        (mkParagraph "Il sistema attuale include:" (some "Heading 3"))]
  ++ (current_features.map fun f =>
        DocElement.paragraph (mkParagraph ("✓ " ++ f) (some "List Bullet")))
  ++ [DocElement.paragraph spacerPara]
  ++ headingBlock "🎯 Fasi di Miglioramento" 1
  ++ phaseBlock phase1.number phase1.title phase1.description phase1.activities
  ++ metricsBlock phase1.metrics
  ++ phaseBlock phase2.number phase2.title phase2.description phase2.activities
  ++ metricsBlock phase2.metrics
  ++ phaseBlock phase3.number phase3.title phase3.description phase3.activities
  ++ metricsBlock phase3.metrics
  ++ phaseBlock phase4.number phase4.title phase4.description phase4.activities
  ++ metricsBlock phase4.metrics
  ++ phaseBlock phase5.number phase5.title phase5.description phase5.activities
  ++ metricsBlock phase5.metrics
  ++ phaseBlock phase6.number phase6.title phase6.description phase6.activities
  ++ metricsBlock phase6.metrics
  ++ phaseBlock phase7.number phase7.title phase7.description phase7.activities
  ++ metricsBlock phase7.metrics
  ++ headingBlock "📅 Timeline di Implementazione Suggerita" 1
  ++ [DocElement.table timeline_table]
  ++ [DocElement.paragraph spacerPara]
  ++ headingBlock "💡 Best Practices Generali" 1
  ++ (best_practices.map fun pr =>
        DocElement.paragraph
          { runs := [plainRun ("• " ++ pr)],
            leftIndentEmu := some (InchesEmu 250) })
  ++ [DocElement.paragraph spacerPara]
  ++ headingBlock "🛠️ Strumenti e Tecnologie Consigliate" 1
  ++ [DocElement.paragraph (mkParagraph "Embedding Models:" (some "Heading 3"))]
  ++ (embedding_tools.map fun s =>
        DocElement.paragraph (mkParagraph s (some "List Bullet")))
  ++ [DocElement.paragraph (mkParagraph "Reranking:" (some "Heading 3"))]
  ++ (reranking_tools.map fun s =>
        DocElement.paragraph (mkParagraph s (some "List Bullet")))
  ++ [DocElement.paragraph (mkParagraph "Vector Databases:" (some "Heading 3"))]
  ++ (vector_db_tools.map fun s =>
        DocElement.paragraph (mkParagraph s (some "List Bullet")))
  ++ [DocElement.paragraph (mkParagraph "Monitoring:" (some "Heading 3"))]
  ++ (monitoring_tools.map fun s =>
        DocElement.paragraph (mkParagraph s (some "List Bullet")))
  ++ [DocElement.paragraph spacerPara]
  ++ headingBlock "🎓 Conclusioni" 1
  ++ [DocElement.paragraph (mkParagraph conclusion_text none)]
  ++ [DocElement.paragraph spacerPara]

/-- The full element list of any produced document: title, subtitle (the
only place `monthYear` occurs), fixed middle, footer (the only place
`nowStamp` occurs). -/
def templateElems (monthYear nowStamp : String) : List DocElement :=
  DocElement.paragraph titlePara
    :: DocElement.paragraph (subtitlePara monthYear)
    :: (templateMiddle ++ [DocElement.paragraph (footerPara nowStamp)])

set_option maxRecDepth 8000 in
/-- The blocks of the script concatenate to the template. -/
lemma blocksOf_buildScript (monthYear nowStamp : String) :
    blocksOf (buildScript monthYear nowStamp)
      = some (templateElems monthYear nowStamp) := rfl

/-- The document build always succeeds and produces the template. -/
lemma create_eq_template (monthYear nowStamp : String) :
    create_rag_improvement_document monthYear nowStamp
      = some ⟨templateElems monthYear nowStamp⟩ := by
  rw [create_rag_improvement_document, runSteps_blocks, blocksOf_buildScript]
  rfl

/-- The produced document is the template. -/
lemma theDocument_eq (monthYear nowStamp : String) :
    theDocument monthYear nowStamp = ⟨templateElems monthYear nowStamp⟩ := by
  rw [theDocument, create_eq_template]
  rfl

/-- The phase descriptor of a `phaseSec` step. -/
def phaseOfStep : BuildStep → Option PhaseSpec
  | BuildStep.phaseSec p => some p
  | _ => none

/-- The metrics list of a `metrics` step. -/
def metricsOfStep : BuildStep → Option (List String)
  | BuildStep.metrics ms => some ms
  | _ => none

/-- The texts of row `i` of a table, one per cell. -/
def rowTexts (t : DocTable) (i : Nat) : List String :=
  (t.cells.getD i []).map cellText

/-- The three components of a timeline tuple, in column order. -/
def tripleTexts (x : String × String × String) : List String :=
  [x.1, x.2.1, x.2.2]

/-- Does `s` begin with `pre`? (character-list comparison). -/
def textBeginsWith (s pre : String) : Bool :=
  s.data.take pre.data.length == pre.data

/-- Replace the subtitle (element 1) and the footer (last element) of a
document with the ones a run with timestamps `monthYear`/`nowStamp` builds;
everything else is kept unchanged. -/
def replaceTimestamps (d : Docx) (monthYear nowStamp : String) : Docx :=
  ⟨(d.elements.set 1 (DocElement.paragraph (subtitlePara monthYear))).dropLast
    ++ [DocElement.paragraph (footerPara nowStamp)]⟩

/-- `main()` with the outcomes of its two external collaborators abstracted:
`createResult` is what `create_rag_improvement_document()` returns (or the
exception it raises, as an `Except.error` carrying the diagnostic), and
`saveResult` is what `doc.save(output_filename)` does. `main` has no
`try`/`except`, so an error value passes through unchanged. -/
def main_run (createResult : Except String Docx)
    (saveResult : Docx → Except String Unit) :
    Except String (List MainEffect) :=
  match createResult with
  | Except.error e => Except.error e
  | Except.ok doc =>
      match saveResult doc with
      | Except.error e => Except.error e
      | Except.ok _ =>
          Except.ok
            [ MainEffect.print "Generazione del documento di miglioramento RAG...",
              MainEffect.fileWrite output_filename doc,
              MainEffect.print ("✓ Documento creato con successo: " ++ output_filename),
              MainEffect.print "  Il documento contiene 7 fasi dettagliate per migliorare il sistema RAG" ]

/-- C1: every run's seven phase sections carry non-empty activity and
metric lists, with activity counts 6, 6, 6, 7, 7, 7, 7 for phases 1–7: the
script of every run contains exactly the seven `add_phase` calls of
`phaseSections`, their activity lists have those literal lengths, none of
the lists is empty, and each `add_phase` call renders its whole activity
list (one bullet per activity) into the document. -/
theorem c1_phase_sections_activity_counts :
    (phaseSections.map fun p => p.activities.length) = [6, 6, 6, 7, 7, 7, 7]
    ∧ (phaseSections.all fun p =>
        !p.activities.isEmpty && !p.metrics.isEmpty) = true
    ∧ (∀ monthYear nowStamp : String,
        (buildScript monthYear nowStamp).filterMap phaseOfStep = phaseSections)
    ∧ ∀ (d : Docx) (p : PhaseSpec),
        (add_phase d p.number p.title p.description p.activities).map
            Docx.elements
          = some (d.elements
              ++ phaseBlock p.number p.title p.description p.activities) := by
  refine ⟨by decide, by decide, fun monthYear nowStamp => rfl, fun d p => ?_⟩
  rw [add_phase_eq]
  rfl

/-- C9: every metrics list passed to `add_metrics_section` has exactly 3
items, and `add_metrics_section` renders one bullet per item, so every
phase's `Metriche di successo` list has exactly 3 bullets. -/
theorem c9_metrics_sections_three_bullets :
    (phaseSections.map fun p => p.metrics.length) = [3, 3, 3, 3, 3, 3, 3]
    ∧ (∀ monthYear nowStamp : String,
        (buildScript monthYear nowStamp).filterMap metricsOfStep
          = phaseSections.map fun p => p.metrics)
    ∧ ∀ (d : Docx) (ms : List String),
        (add_metrics_section d ms).elements = d.elements ++ metricsBlock ms :=
  ⟨by decide, fun monthYear nowStamp => rfl, add_metrics_section_eq⟩

/-- C2: the timeline table is 8 rows × 3 columns, its row 0 holds exactly
the literal header labels `Fase`, `Durata Stimata`, `Priorità`, and every
run in the header row's cells is bold. -/
theorem c2_timeline_table_header :
    timeline_table.nRows = 8 ∧ timeline_table.nCols = 3
    ∧ timeline_table.cells.length = 8
    ∧ (timeline_table.cells.all fun r => r.length == 3) = true
    ∧ rowTexts timeline_table 0 = ["Fase", "Durata Stimata", "Priorità"]
    ∧ ((timeline_table.cells.getD 0 []).all fun c =>
        c.paragraphs.all fun p =>
          p.runs.all fun r => r.bold == some true) = true :=
  ⟨rfl, rfl, by decide, by decide, by decide, by decide⟩

/-- C10: for every i from 1 to 7, row i of the timeline table holds the
i-th `phases_data` entry (name, duration, priority in column order), and
the text of its column 0 begins with `Fase i`. -/
theorem c10_timeline_rows_match_phases_data :
    ((List.range 7).all fun k =>
      rowTexts timeline_table (k + 1)
          == tripleTexts (phases_data.getD k ("", "", ""))
        && textBeginsWith ((rowTexts timeline_table (k + 1)).headD "")
             ("Fase " ++ toString (k + 1))) = true := by
  decide

/-- C3: the program reads no input beyond the two timestamp strings, and
any two runs produce the same document except for the month/year string
embedded in the subtitle and the date/time string embedded in the footer:
every run's document is the fixed template (timestamps occurring only in
the subtitle and footer paragraphs), so replacing those two paragraphs of
one run's document with the other run's yields the other run's document
exactly. -/
theorem c3_runs_identical_except_timestamps (my1 ns1 my2 ns2 : String) :
    theDocument my1 ns1 = ⟨templateElems my1 ns1⟩
    ∧ replaceTimestamps (theDocument my1 ns1) my2 ns2 = theDocument my2 ns2 := by
  refine ⟨theDocument_eq my1 ns1, ?_⟩
  rw [theDocument_eq, theDocument_eq]
  refine Docx.ext _ _ ?_
  show (((DocElement.paragraph titlePara
        :: DocElement.paragraph (subtitlePara my2)
        :: templateMiddle)
      ++ [DocElement.paragraph (footerPara ns1)]).dropLast)
      ++ [DocElement.paragraph (footerPara ns2)]
    = templateElems my2 ns2
  rw [List.dropLast_concat]
  rfl

/-- C4: on every successful run, `main` prints exactly two confirmation
lines (the prints that follow the file write) before the process exits,
and they are the two fixed status lines. -/
theorem c4_two_confirmation_lines (monthYear nowStamp : String) :
    (main_trace monthYear nowStamp).map confirmationLines
      = some [ "✓ Documento creato con successo: PIANO_MIGLIORAMENTO_RAG.docx",
               "  Il documento contiene 7 fasi dettagliate per migliorare il sistema RAG" ]
    ∧ (main_trace monthYear nowStamp).map
        (fun tr => (confirmationLines tr).length) = some 2 :=
  ⟨rfl, rfl⟩

/-- C5: every run of `main` writes exactly one file, named by the constant
`output_filename = PIANO_MIGLIORAMENTO_RAG.docx`, reads no file, and its
effect on a filesystem is exactly to bind that one name to the produced
document (overwriting it), leaving every other name unchanged. -/
theorem c5_writes_exactly_one_fixed_file (monthYear nowStamp : String)
    (fs : String → Option Docx) :
    (main_trace monthYear nowStamp).map
        (fun tr => (tr.filter isFileWrite).map writeTarget)
      = some [output_filename]
    ∧ (main_trace monthYear nowStamp).map (fun tr => tr.filter isFileRead)
      = some []
    ∧ output_filename = "PIANO_MIGLIORAMENTO_RAG.docx"
    ∧ (main_trace monthYear nowStamp).map (fun tr => tr.foldl applyEffect fs)
      = some fun m =>
          if m = output_filename then some (theDocument monthYear nowStamp)
          else fs m :=
  ⟨rfl, rfl, rfl, rfl⟩

/-- C6: `main` has no handler: an exception raised by the document library
in `create_rag_improvement_document` or by the filesystem in `doc.save`
propagates unchanged (same diagnostic, no translation, no retry), aborting
the run before the confirmation prints; when neither fails, the run is the
normal trace. -/
theorem c6_failures_propagate_uncaught :
    (∀ (e : String) (saveResult : Docx → Except String Unit),
        main_run (Except.error e) saveResult = Except.error e)
    ∧ (∀ (doc : Docx) (e : String),
        main_run (Except.ok doc) (fun _ => Except.error e) = Except.error e)
    ∧ ∀ monthYear nowStamp : String,
        main_run (Except.ok (theDocument monthYear nowStamp))
            (fun _ => Except.ok ())
          = Except.ok ((main_trace monthYear nowStamp).getD []) :=
  ⟨fun e saveResult => rfl, fun doc e => rfl, fun monthYear nowStamp => rfl⟩

/-- C7: document construction is append-only: one `addElement` appends its
element at the end, and every statement of the build (every `applyStep`,
including each `add_heading_with_style`, `add_phase` and
`add_metrics_section` call) leaves the existing elements untouched as a
prefix and appends its new elements after them — so block elements appear
in the final document exactly in the program order in which they were
appended, and no element is mutated once appended. -/
theorem c7_append_only_program_order :
    (∀ (d : Docx) (e : DocElement), (d.addElement e).elements = d.elements ++ [e])
    ∧ (∀ (d : Docx) (text : String) (level : Nat) (d' : Docx),
        add_heading_with_style d text level = some d' →
        ∃ tail, d'.elements = d.elements ++ tail)
    ∧ (∀ (d : Docx) (s : BuildStep) (d' : Docx),
        applyStep d s = some d' → ∃ tail, d'.elements = d.elements ++ tail) := by
  have happly : ∀ (d : Docx) (s : BuildStep) (d' : Docx),
      applyStep d s = some d' → ∃ tail, d'.elements = d.elements ++ tail := by
    intro d s d' h
    rw [applyStep_eq] at h
    cases hb : stepBlock s with
    | none => rw [hb] at h; exact absurd h (by simp)
    | some b =>
        rw [hb] at h
        simp only [Option.map] at h
        injection h with h2
        exact ⟨b, by rw [← h2]⟩
  refine ⟨fun d e => rfl, ?_, happly⟩
  intro d text level d' h
  exact happly d (BuildStep.heading text level) d' (by simpa [applyStep] using h)

/-- C7 witness: the append-only property applied to the first heading call
of the script on the empty document. -/
theorem c7_append_only_program_order_witness :
    ∃ tail, ((add_heading_with_style ⟨[]⟩ "📋 Sommario Esecutivo" 1).getD
        ⟨[]⟩).elements
      = (Docx.mk []).elements ++ tail :=
  c7_append_only_program_order.2.1 ⟨[]⟩ "📋 Sommario Esecutivo" 1
    ((add_heading_with_style ⟨[]⟩ "📋 Sommario Esecutivo" 1).getD ⟨[]⟩) rfl

/-- C8: every `add_heading_with_style` call in this script passes non-empty
text, so the `heading.runs[0]` access never raises: the helper succeeds
exactly on non-empty text, every heading step of every run's script has
non-empty text, and the whole document build succeeds for all timestamps. -/
theorem c8_heading_run_access_never_fails :
    (∀ (d : Docx) (text : String) (level : Nat),
        (add_heading_with_style d text level).isSome = true ↔ text ≠ "")
    ∧ (∀ monthYear nowStamp : String,
        ((buildScript monthYear nowStamp).all fun s =>
          match s with
          | BuildStep.heading text _ => !(text == "")
          | _ => true) = true)
    ∧ ∀ monthYear nowStamp : String,
        (create_rag_improvement_document monthYear nowStamp).isSome = true := by
  refine ⟨?_, fun monthYear nowStamp => rfl, fun monthYear nowStamp => rfl⟩
  intro d text level
  by_cases h : text = ""
  · subst h
    simp [add_heading_with_style, mkParagraph, set_run0_color]
  · simp [add_heading_with_style_eq d text level h, h]
